import Mathlib

/-
  Verification of the proxy-tray manager (src/proxy/proxy_tray.py).

  The Python program is shallowly embedded: every external interaction
  (subprocess calls, dialog boxes) is parameterised by an explicit oracle
  describing the outcome of that interaction, and every handler returns
  the updated manager state together with a record of its observable
  effects (external calls issued, notifications emitted, whether a
  re-render was triggered).
-/

namespace ProxyTray

/-- A proxy catalog entry: `{name, ip, user, password}` as in proxies.json.
The Python code reads `user`/`password` with `.get(key, "")`, so a missing
credential is modelled as the empty string. -/
structure ProxyRecord where
  name : String
  ip : String
  user : String
  password : String
deriving DecidableEq

def PROXY_CMD : String := "/usr/local/sbin/proxyredsocks"

def PROXY_PORT : String := "3128"

def POLL_INTERVAL : Nat := 5

/-- RGB colour, as the tuples in the palette of the source. -/
structure Color where
  r : Nat
  g : Nat
  b : Nat
deriving DecidableEq

def CLR_PROXY : Color := ⟨41, 121, 255⟩

def CLR_REDSOCKS : Color := ⟨0, 200, 83⟩

def CLR_BOTH : Color := ⟨156, 39, 176⟩

def CLR_OFF : Color := ⟨120, 120, 120⟩

/-- Outcome of one external process invocation (`subprocess.run` /
`subprocess.check_call`): either an exception was raised (missing tool,
timeout, ...) or the process completed with an exit code and stdout. -/
inductive RunOutcome where
  | exc
  | completed (exitCode : Nat) (stdout : String)
deriving DecidableEq

/-- Outcome of reading and JSON-parsing proxies.json: an exception
(missing file, parse error), a parse to something that is not a list,
or a parse to a list of records. -/
inductive JsonSource where
  | unreadable
  | notList
  | list (data : List ProxyRecord)
deriving DecidableEq

/-- Outcome of opening and reading proxy.txt: an exception, or the list
of its lines. -/
inductive TextSource where
  | unreadable
  | lines (ls : List String)
deriving DecidableEq

/-- Outcome of a kdialog invocation: non-zero return code (cancelled by
the user), an exception (e.g. timeout), or success with stdout. -/
inductive DialogResult where
  | cancelled
  | exc (msg : String)
  | chosen (stdout : String)
deriving DecidableEq

/-- A desktop notification as handed to notify-send. -/
structure Notification where
  title : String
  body : String
  urgency : String
deriving DecidableEq

/-- The mutable fields of `ProxyManager`: the selected proxy for the KDE
system proxy and the selected proxy for redsocks. -/
structure ManagerState where
  proxy_selection : ProxyRecord
  redsocks_selection : ProxyRecord
deriving DecidableEq

/- ── Data helpers ─────────────────────────────────────────────── -/

/-- Model of Python `str.strip()`: drop whitespace characters from both
ends of the string. Written over the character list so that it evaluates
by kernel reduction. -/
def pstrip (s : String) : String :=
  ⟨(((s.data.dropWhile Char.isWhitespace).reverse).dropWhile Char.isWhitespace).reverse⟩

/-- The loop body of the proxy.txt fallback in `_load_proxies`:
`for i, line in enumerate(fh, 1)` with counter `i` starting at the given
value; a stripped non-blank line yields one record. -/
def txt_records_from (i : Nat) : List String → List ProxyRecord
  | [] => []
  | line :: rest =>
    let ip := pstrip line
    if ip = "" then txt_records_from (i + 1) rest
    else ⟨"Proxy " ++ toString i, ip, "edcguest", "edcguest"⟩ :: txt_records_from (i + 1) rest

def txt_records (ls : List String) : List ProxyRecord :=
  txt_records_from 1 ls

/-- `_load_proxies`: read the list from proxies.json; keep it only when it
parsed to a non-empty list; otherwise fall back to proxy.txt, one record
per non-blank line; any exception on either source is swallowed. -/
def _load_proxies (js : JsonSource) (ts : TextSource) : List ProxyRecord :=
  let proxies : List ProxyRecord :=
    match js with
    | .list data => if data ≠ [] then data else []
    | _ => []
  if proxies = [] then
    match ts with
    | .unreadable => []
    | .lines ls => txt_records ls
  else
    proxies

/-- `_initial_proxy`: first proxy of the loaded list, or the hard-coded
default record. -/
def _initial_proxy (js : JsonSource) (ts : TextSource) : ProxyRecord :=
  match _load_proxies js ts with
  | p :: _ => p
  | [] => ⟨"Default", "172.16.x.x", "edcguest", "edcguest"⟩

/-- `ProxyManager.__init__`: both selections start as (copies of) the
initial proxy. -/
def init_state (js : JsonSource) (ts : TextSource) : ManagerState :=
  let initial := _initial_proxy js ts
  ⟨initial, initial⟩

/- ── Status queries ───────────────────────────────────────────── -/

/-- `is_redsocks_on`: `subprocess.check_call` raises on any non-zero exit
code and on any other failure, and both are caught and mapped to False;
so the probe is true exactly when the systemctl query exits 0. -/
def is_redsocks_on (o : RunOutcome) : Bool :=
  match o with
  | .exc => false
  | .completed exitCode _ => exitCode = 0

/-- `is_proxy_on`: `subprocess.run` without `check=True` raises only on
exceptions such as a timeout or a missing tool (mapped to False); when the
process completes, the probe compares the stripped stdout with "1" and
ignores the exit code. -/
def is_proxy_on (o : RunOutcome) : Bool :=
  match o with
  | .exc => false
  | .completed _ stdout => pstrip stdout = "1"

/- ── Icon rendering / tooltip ─────────────────────────────────── -/

/-- The branch of `_render_icon` choosing background colour and label from
the two probed booleans. -/
def icon_style (proxy redsocks : Bool) : Color × String :=
  if proxy && redsocks then (CLR_BOTH, "PR")
  else if redsocks then (CLR_REDSOCKS, "R")
  else if proxy then (CLR_PROXY, "P")
  else (CLR_OFF, "–")

/-- `_render_icon`, abstracted to the (colour, label) pair that determines
the drawn 64×64 glyph: probes both subsystems fresh, then picks the style. -/
def _render_icon (oProxy oRedsocks : RunOutcome) : Color × String :=
  let proxy := is_proxy_on oProxy
  let redsocks := is_redsocks_on oRedsocks
  icon_style proxy redsocks

/-- `_tooltip`: probes both subsystems and formats the tooltip string from
the probe results and the two selected addresses. -/
def _tooltip (st : ManagerState) (oProxy oRedsocks : RunOutcome) : String :=
  let proxy := if is_proxy_on oProxy then "ON" else "OFF"
  let redsocks := if is_redsocks_on oRedsocks then "ON" else "OFF"
  "Proxy: " ++ proxy ++ " (" ++ st.proxy_selection.ip ++ ")  |  " ++
    "Redsocks: " ++ redsocks ++ " (" ++ st.redsocks_selection.ip ++ ")"

/- ── Mutation executor ────────────────────────────────────────── -/

/-- The observable effects of one menu-action handler: the external
commands issued (full argv, in order), the notifications emitted, and
whether `_refresh` was called afterwards. -/
structure MutationResult where
  calls : List (List String)
  notifications : List Notification
  refreshed : Bool
deriving DecidableEq

/-- The argv of one `kwriteconfig6` key-write against kioslaverc. -/
def kwrite_cmd (key val : String) : List String :=
  ["kwriteconfig6", "--file", "kioslaverc", "--group", "Proxy Settings", "--key", key, val]

/-- The proxy URL built by `_enable_proxy`: credentials are embedded only
when the user name is non-empty (Python truthiness of `user`). -/
def proxy_url (p : ProxyRecord) : String :=
  if p.user ≠ "" then
    "http://" ++ p.user ++ ":" ++ p.password ++ "@" ++ p.ip ++ ":" ++ PROXY_PORT
  else
    "http://" ++ p.ip ++ ":" ++ PROXY_PORT

def NO_PROXY_FOR : String := "localhost,127.0.0.0/8,10.0.0.0/8,172.16.0.0/12,192.168.0.0/16"

/-- The `settings` dict of `_enable_proxy`, in insertion (iteration) order. -/
def enable_proxy_settings (p : ProxyRecord) : List (String × String) :=
  let url := proxy_url p
  [("ProxyType", "1"),
   ("httpProxy", url),
   ("httpsProxy", url),
   ("ftpProxy", url),
   ("NoProxyFor", NO_PROXY_FOR)]

/-- The five kwriteconfig6 argvs issued by `_enable_proxy`, in order. -/
def enable_proxy_cmds (p : ProxyRecord) : List (List String) :=
  (enable_proxy_settings p).map fun kv => kwrite_cmd kv.1 kv.2

/-- Run a sequence of external commands with `check=True` inside one
`try` block: each command's outcome is given by the oracle `ex` (`none` =
success, `some msg` = exception with message `str(exc) = msg`); the first
failure aborts the remaining commands. Returns the commands actually
issued and the exception, if any. -/
def run_checked_seq (ex : List String → Option String) :
    List (List String) → List (List String) × Option String
  | [] => ([], none)
  | c :: rest =>
    match ex c with
    | none =>
      let res := run_checked_seq ex rest
      (c :: res.1, res.2)
    | some msg => ([c], some msg)

/-- `_enable_proxy`: issue the five key-writes under one try; on success
notify "Proxy ON", on the first exception notify one critical "Proxy
Error"; in both cases refresh; the selections are never assigned. -/
def _enable_proxy (st : ManagerState) (ex : List String → Option String) :
    ManagerState × MutationResult :=
  let p := st.proxy_selection
  let res := run_checked_seq ex (enable_proxy_cmds p)
  let note : Notification :=
    match res.2 with
    | none =>
      ⟨"Proxy ON", "System proxy → " ++ p.name ++ " (" ++ p.ip ++ ":" ++ PROXY_PORT ++ ")",
        "normal"⟩
    | some msg => ⟨"Proxy Error", msg, "critical"⟩
  (st, ⟨res.1, [note], true⟩)

/-- `_disable_proxy`: one key-write resetting ProxyType to "0". -/
def _disable_proxy (st : ManagerState) (ex : List String → Option String) :
    ManagerState × MutationResult :=
  let cmd := kwrite_cmd "ProxyType" "0"
  let note : Notification :=
    match ex cmd with
    | none => ⟨"Proxy OFF", "System proxy disabled", "normal"⟩
    | some msg => ⟨"Proxy Error", msg, "critical"⟩
  (st, ⟨[cmd], [note], true⟩)

/-- `_enable_redsocks`: one privileged call `pkexec PROXY_CMD enable <ip>`. -/
def _enable_redsocks (st : ManagerState) (ex : List String → Option String) :
    ManagerState × MutationResult :=
  let ip := st.redsocks_selection.ip
  let cmd := ["pkexec", PROXY_CMD, "enable", ip]
  let note : Notification :=
    match ex cmd with
    | none =>
      ⟨"Redsocks ON", "Transparent proxy via " ++ st.redsocks_selection.name ++ " (" ++ ip ++ ")",
        "normal"⟩
    | some msg => ⟨"Redsocks Error", msg, "critical"⟩
  (st, ⟨[cmd], [note], true⟩)

/-- `_disable_redsocks`: one privileged call `pkexec PROXY_CMD disable`. -/
def _disable_redsocks (st : ManagerState) (ex : List String → Option String) :
    ManagerState × MutationResult :=
  let cmd := ["pkexec", PROXY_CMD, "disable"]
  let note : Notification :=
    match ex cmd with
    | none => ⟨"Redsocks OFF", "Transparent proxy disabled", "normal"⟩
    | some msg => ⟨"Redsocks Error", msg, "critical"⟩
  (st, ⟨[cmd], [note], true⟩)

/- ── Selection picker workflow ────────────────────────────────── -/

/-- `_pick_proxy`: load the catalog; if empty, notify once and return no
change; otherwise show the radiolist (outcome `d1`); on the custom
sentinel show the input box (outcome `d2`); cancellation or blank input
returns no change without a notification; an exception in either dialog
notifies one critical "Error" and returns no change; otherwise resolve
the chosen tag against the catalog by address, falling through to no
change when nothing matches. `current_selection` only pre-marks the list
and pre-fills the input box, so it does not influence the outcome here. -/
def _pick_proxy (js : JsonSource) (ts : TextSource) (_current_selection : ProxyRecord)
    (d1 d2 : DialogResult) : Option ProxyRecord × List Notification :=
  let proxies := _load_proxies js ts
  if proxies = [] then
    (none, [⟨"No Proxies", "proxies.json is empty or missing", "critical"⟩])
  else
    match d1 with
    | .cancelled => (none, [])
    | .exc msg => (none, [⟨"Error", msg, "critical"⟩])
    | .chosen stdout =>
      let choice := pstrip stdout
      if choice = "__custom__" then
        match d2 with
        | .cancelled => (none, [])
        | .exc msg => (none, [⟨"Error", msg, "critical"⟩])
        | .chosen stdout2 =>
          if pstrip stdout2 = "" then (none, [])
          else (some ⟨"Custom", pstrip stdout2, "edcguest", "edcguest"⟩, [])
      else
        match proxies.find? (fun p => p.ip = choice) with
        | some p => (some p, [])
        | none => (none, [])

/-- `_change_proxy`: run the picker against the system-proxy selection;
install the result and notify on success, otherwise change nothing; always
refresh. Returns (new state, notifications, refreshed). -/
def _change_proxy (st : ManagerState) (js : JsonSource) (ts : TextSource)
    (d1 d2 : DialogResult) : ManagerState × List Notification × Bool :=
  let picked := _pick_proxy js ts st.proxy_selection d1 d2
  match picked.1 with
  | some r =>
    ({st with proxy_selection := r},
      picked.2 ++ [⟨"Proxy Changed", "System proxy → " ++ r.name ++ " (" ++ r.ip ++ ")",
        "normal"⟩],
      true)
  | none => (st, picked.2, true)

/-- `_change_redsocks_proxy`: as `_change_proxy` for the redsocks selection. -/
def _change_redsocks_proxy (st : ManagerState) (js : JsonSource) (ts : TextSource)
    (d1 d2 : DialogResult) : ManagerState × List Notification × Bool :=
  let picked := _pick_proxy js ts st.redsocks_selection d1 d2
  match picked.1 with
  | some r =>
    ({st with redsocks_selection := r},
      picked.2 ++ [⟨"Redsocks Proxy Changed", "Redsocks proxy → " ++ r.name ++ " (" ++ r.ip ++ ")",
        "normal"⟩],
      true)
  | none => (st, picked.2, true)

/- ── Refresh / monitor ────────────────────────────────────────── -/

/-- The fields of the live tray icon written by `_refresh`: the rendered
(colour, label) pair and the tooltip title. -/
structure IconState where
  icon : Color × String
  title : String
deriving DecidableEq

/-- `_refresh`: re-render the icon and recompute the tooltip from fresh
probes; the manager state is read, never written. -/
def _refresh (st : ManagerState) (oProxy oRedsocks : RunOutcome) :
    ManagerState × IconState :=
  (st, ⟨_render_icon oProxy oRedsocks, _tooltip st oProxy oRedsocks⟩)

/-- `_monitor`: the background polling loop, one `_refresh` per tick; the
trace lists the probe outcomes observed at each tick. -/
def _monitor (st : ManagerState) (trace : List (RunOutcome × RunOutcome))
    (icon : IconState) : ManagerState × IconState :=
  match trace with
  | [] => (st, icon)
  | (o1, o2) :: rest =>
    let step := _refresh st o1 o2
    _monitor step.1 rest step.2

/- ── Concrete fixtures used by witnesses and counterexamples ──── -/

/-- A concrete catalog record. -/
def recA : ProxyRecord := ⟨"A", "10.0.0.1", "u", "pw"⟩

/-- A concrete manager state with `recA` selected for both subsystems. -/
def stA : ManagerState := ⟨recA, recA⟩

/-- An oracle under which every external call raises. -/
def exFail : List String → Option String := fun _ => some "boom"

/-- An oracle under which exactly the first key-write of the
enable-proxy sequence raises. -/
def exFailFirst : List String → Option String :=
  fun c => if c = kwrite_cmd "ProxyType" "1" then some "boom" else none

/-- An oracle under which exactly the httpProxy key-write (the second of
the enable-proxy sequence) raises. -/
def exFailHttp : List String → Option String :=
  fun c => if c = kwrite_cmd "httpProxy" (proxy_url recA) then some "kaboom" else none

/-- The tooltip format as described by the (amended) specification: the
two ON/OFF words come from the probes and the two addresses come from the
current selections, joined by the two-space `|` separator. Used only to
compare the source's `_tooltip` against the spec's wording. -/
def tooltip_spec_format (pOn rOn : Bool) (pIp rIp : String) : String :=
  "Proxy: " ++ (if pOn then "ON" else "OFF") ++ " (" ++ pIp ++ ")  |  " ++
    "Redsocks: " ++ (if rOn then "ON" else "OFF") ++ " (" ++ rIp ++ ")"

/- ── Helper lemmas ────────────────────────────────────────────── -/

/-- The commands actually issued by a checked sequence form a prefix of
the commanded sequence: nothing outside the listed forward writes (in
particular no compensating rollback write) is ever issued. -/
theorem run_checked_seq_calls_prefixOf (ex : List String → Option String)
    (l : List (List String)) :
    ∃ rest, (run_checked_seq ex l).1 ++ rest = l := by
  induction l with
  | nil => exact ⟨[], rfl⟩
  | cons c rest ih =>
    cases hc : ex c with
    | none =>
      obtain ⟨r, hr⟩ := ih
      exact ⟨r, by simp [run_checked_seq, hc, hr]⟩
    | some msg => exact ⟨rest, by simp [run_checked_seq, hc]⟩

/-- A checked sequence reports no exception exactly when every listed
command succeeds. -/
theorem run_checked_seq_err_none_iff (ex : List String → Option String)
    (l : List (List String)) :
    (run_checked_seq ex l).2 = none ↔ ∀ c ∈ l, ex c = none := by
  induction l with
  | nil => simp [run_checked_seq]
  | cons c rest ih =>
    cases hc : ex c with
    | none => simp [run_checked_seq, hc, ih]
    | some msg => simp [run_checked_seq, hc]

/-- When every command succeeds, a checked sequence issues all of them
in order. -/
theorem run_checked_seq_all_ok (ex : List String → Option String)
    (l : List (List String)) (h : ∀ c ∈ l, ex c = none) :
    run_checked_seq ex l = (l, none) := by
  induction l with
  | nil => rfl
  | cons c rest ih =>
    have hc : ex c = none := h c (by simp)
    simp [run_checked_seq, hc, ih (fun c' hc' => h c' (by simp [hc']))]

/-- Membership characterisation of the proxy.txt fallback records: with
the counter starting at `i`, the records are exactly one per non-blank
line, named by the line's 0-based index `j` shifted by the counter. -/
theorem mem_txt_records_from (i : Nat) (ls : List String) (r : ProxyRecord) :
    r ∈ txt_records_from i ls ↔
      ∃ j line, ls.get? j = some line ∧ pstrip line ≠ "" ∧
        r = ⟨"Proxy " ++ toString (i + j), pstrip line, "edcguest", "edcguest"⟩ := by
  induction ls generalizing i with
  | nil => simp [txt_records_from]
  | cons line rest ih =>
    by_cases hb : pstrip line = ""
    · rw [show txt_records_from i (line :: rest) = txt_records_from (i + 1) rest by
        simp [txt_records_from, hb]]
      rw [ih]
      constructor
      · rintro ⟨j, line', h1, h2, h3⟩
        refine ⟨j + 1, line', by simpa using h1, h2, ?_⟩
        rw [show i + (j + 1) = i + 1 + j by omega]
        exact h3
      · rintro ⟨j, line', h1, h2, h3⟩
        cases j with
        | zero =>
          have hl : line = line' := by simpa using h1
          subst hl
          exact absurd hb h2
        | succ j' =>
          refine ⟨j', line', by simpa using h1, h2, ?_⟩
          rw [show i + 1 + j' = i + (j' + 1) by omega]
          exact h3
    · rw [show txt_records_from i (line :: rest) =
        (⟨"Proxy " ++ toString i, pstrip line, "edcguest", "edcguest"⟩ : ProxyRecord) ::
          txt_records_from (i + 1) rest by simp [txt_records_from, hb]]
      rw [List.mem_cons, ih]
      constructor
      · rintro (h0 | ⟨j, line', h1, h2, h3⟩)
        · exact ⟨0, line, rfl, hb, by simpa using h0⟩
        · refine ⟨j + 1, line', by simpa using h1, h2, ?_⟩
          rw [show i + (j + 1) = i + 1 + j by omega]
          exact h3
      · rintro ⟨j, line', h1, h2, h3⟩
        cases j with
        | zero =>
          left
          have hl : line = line' := by simpa using h1
          subst hl
          simpa using h3
        | succ j' =>
          right
          refine ⟨j', line', by simpa using h1, h2, ?_⟩
          rw [show i + 1 + j' = i + (j' + 1) by omega]
          exact h3

/-- The proxy.txt fallback yields no record exactly when every line is
blank after stripping. -/
theorem txt_records_from_eq_nil_iff (i : Nat) (ls : List String) :
    txt_records_from i ls = [] ↔ ∀ line ∈ ls, pstrip line = "" := by
  induction ls generalizing i with
  | nil => simp [txt_records_from]
  | cons line rest ih =>
    by_cases hb : pstrip line = ""
    · simp [txt_records_from, hb, ih]
    · simp [txt_records_from, hb]

/-- The background loop never writes the manager state. -/
theorem monitor_preserves_state (trace : List (RunOutcome × RunOutcome))
    (st : ManagerState) (icon : IconState) :
    (_monitor st trace icon).1 = st := by
  induction trace generalizing st icon with
  | nil => rfl
  | cons p rest ih =>
    cases p with
    | mk o1 o2 => simpa [_monitor, _refresh] using ih st _

/-- Cancellation cases of the picker, for any current selection. -/
theorem pick_proxy_cancel (js : JsonSource) (ts : TextSource) (cur : ProxyRecord)
    (d1 d2 : DialogResult)
    (hne : _load_proxies js ts ≠ [])
    (hcancel :
      d1 = DialogResult.cancelled ∨
      ∃ stdout, d1 = DialogResult.chosen stdout ∧ pstrip stdout = "__custom__" ∧
        (d2 = DialogResult.cancelled ∨
          ∃ stdout2, d2 = DialogResult.chosen stdout2 ∧ pstrip stdout2 = "")) :
    _pick_proxy js ts cur d1 d2 = (none, []) := by
  rcases hcancel with h1 | ⟨stdout, h1, hcust, h2⟩
  · subst h1
    simp [_pick_proxy, hne]
  · subst h1
    rcases h2 with h2 | ⟨stdout2, h2, hblank⟩
    · subst h2
      simp [_pick_proxy, hne, hcust]
    · subst h2
      simp [_pick_proxy, hne, hcust, hblank]

/- ── Claim theorems ───────────────────────────────────────────── -/

/-- Claim C1, counterexample: when the very first key-write of the
enable-system-proxy sequence fails, only one of the five writes is ever
attempted (the `check=True` exception aborts the loop), so the claim that
all five writes are attempted regardless of individual failures is false;
the failure still yields exactly the single critical notification. -/
theorem enable_proxy_not_all_writes_attempted :
    (_enable_proxy stA exFailFirst).2.calls.length = 1 ∧
    (enable_proxy_cmds stA.proxy_selection).length = 5 ∧
    (_enable_proxy stA exFailFirst).2.notifications =
      [⟨"Proxy Error", "boom", "critical"⟩] := by
  decide

/-- Claim C1 (amended): the five key-writes are attempted in order only up
to and including the first failing write; if any write fails, exactly one
critical-severity error notification is emitted, the operation is
considered failed, and no already-applied write is rolled back — the
issued calls are a prefix of the five-write sequence and the state is
unchanged. -/
theorem enable_proxy_failure_behaviour (st : ManagerState)
    (ex : List String → Option String)
    (h : ∃ c ∈ enable_proxy_cmds st.proxy_selection, ex c ≠ none) :
    (_enable_proxy st ex).2.notifications.length = 1 ∧
    (∀ n ∈ (_enable_proxy st ex).2.notifications, n.urgency = "critical") ∧
    (∃ rest, (_enable_proxy st ex).2.calls ++ rest = enable_proxy_cmds st.proxy_selection) ∧
    (_enable_proxy st ex).1 = st := by
  have herr : (run_checked_seq ex (enable_proxy_cmds st.proxy_selection)).2 ≠ none := by
    rw [Ne, run_checked_seq_err_none_iff]
    rcases h with ⟨c, hc, hne⟩
    intro hall
    exact hne (hall c hc)
  cases hm : (run_checked_seq ex (enable_proxy_cmds st.proxy_selection)).2 with
  | none => exact absurd hm herr
  | some msg =>
    refine ⟨by simp [_enable_proxy], ?_, ?_, rfl⟩
    · simp [_enable_proxy, hm]
    · simpa [_enable_proxy] using
        run_checked_seq_calls_prefixOf ex (enable_proxy_cmds st.proxy_selection)

/-- Claim C1, witness: a failure on the second write (httpProxy). -/
theorem enable_proxy_failure_behaviour_witness :
    (_enable_proxy stA exFailHttp).2.notifications.length = 1 ∧
    (∀ n ∈ (_enable_proxy stA exFailHttp).2.notifications, n.urgency = "critical") ∧
    (_enable_proxy stA exFailHttp).1 = stA := by
  have h := enable_proxy_failure_behaviour stA exFailHttp (by decide)
  exact ⟨h.1, h.2.1, h.2.2.2⟩

/-- Claim C2: the (colour, label) mapping of `_render_icon` is total and
exhaustive over the four probe-boolean pairs, with exactly the stated
table, and `_render_icon` is that mapping applied to the two probes. -/
theorem icon_style_table :
    icon_style false false = (CLR_OFF, "–") ∧
    icon_style true false = (CLR_PROXY, "P") ∧
    icon_style false true = (CLR_REDSOCKS, "R") ∧
    icon_style true true = (CLR_BOTH, "PR") ∧
    ∀ o1 o2 : RunOutcome,
      _render_icon o1 o2 = icon_style (is_proxy_on o1) (is_redsocks_on o2) :=
  ⟨by decide, by decide, by decide, by decide, fun o1 o2 => rfl⟩

/-- Claim C3, counterexample: `is_proxy_on` ignores the exit code of the
kreadconfig6 call (`subprocess.run` without `check=True` does not raise on
a non-zero exit), so a completed call with non-zero exit code and stdout
"1" yields true, contradicting the claim that a non-zero exit resolves to
false. -/
theorem proxy_probe_true_on_nonzero_exit :
    is_proxy_on (RunOutcome.completed 1 "1") = true ∧ (1 : Nat) ≠ 0 := by
  decide

/-- Claim C3 (amended): both probes are total; `is_proxy_on` is true iff
the read completed (no exception) with stripped stdout "1", regardless of
exit code; `is_redsocks_on` is true iff the service query completed with
exit code 0; an exception resolves both to false. -/
theorem probe_failure_policy (o : RunOutcome) :
    (is_proxy_on o = true ↔
      ∃ ec stdout, o = RunOutcome.completed ec stdout ∧ pstrip stdout = "1") ∧
    (is_redsocks_on o = true ↔ ∃ stdout, o = RunOutcome.completed 0 stdout) ∧
    (o = RunOutcome.exc → is_proxy_on o = false ∧ is_redsocks_on o = false) := by
  cases o with
  | exc => simp [is_proxy_on, is_redsocks_on]
  | completed ec stdout =>
    refine ⟨?_, ?_, by intro h; cases h⟩
    · simp only [is_proxy_on, decide_eq_true_eq]
      constructor
      · intro h
        exact ⟨ec, stdout, rfl, h⟩
      · rintro ⟨ec', s', heq, h1⟩
        cases heq
        exact h1
    · simp only [is_redsocks_on, decide_eq_true_eq]
      constructor
      · intro h
        subst h
        exact ⟨stdout, rfl⟩
      · rintro ⟨s', heq⟩
        cases heq
        rfl

/-- Claim C3, witness: an exception resolves both probes to false. -/
theorem probe_failure_policy_witness :
    is_proxy_on RunOutcome.exc = false ∧ is_redsocks_on RunOutcome.exc = false :=
  (probe_failure_policy RunOutcome.exc).2.2 rfl

/-- Claim C4: each of the four mutation handlers leaves both selections
unchanged and triggers a re-render, and when its external call (for the
enable-proxy handler: any of its write sequence) fails it emits exactly
one notification, of critical severity. -/
theorem mutation_failure_uniform (st : ManagerState)
    (ex : List String → Option String) :
    ((_enable_proxy st ex).1 = st ∧ (_enable_proxy st ex).2.refreshed = true ∧
      ((run_checked_seq ex (enable_proxy_cmds st.proxy_selection)).2 ≠ none →
        (_enable_proxy st ex).2.notifications.length = 1 ∧
        ∀ n ∈ (_enable_proxy st ex).2.notifications, n.urgency = "critical")) ∧
    ((_disable_proxy st ex).1 = st ∧ (_disable_proxy st ex).2.refreshed = true ∧
      (ex (kwrite_cmd "ProxyType" "0") ≠ none →
        (_disable_proxy st ex).2.notifications.length = 1 ∧
        ∀ n ∈ (_disable_proxy st ex).2.notifications, n.urgency = "critical")) ∧
    ((_enable_redsocks st ex).1 = st ∧ (_enable_redsocks st ex).2.refreshed = true ∧
      (ex ["pkexec", PROXY_CMD, "enable", st.redsocks_selection.ip] ≠ none →
        (_enable_redsocks st ex).2.notifications.length = 1 ∧
        ∀ n ∈ (_enable_redsocks st ex).2.notifications, n.urgency = "critical")) ∧
    ((_disable_redsocks st ex).1 = st ∧ (_disable_redsocks st ex).2.refreshed = true ∧
      (ex ["pkexec", PROXY_CMD, "disable"] ≠ none →
        (_disable_redsocks st ex).2.notifications.length = 1 ∧
        ∀ n ∈ (_disable_redsocks st ex).2.notifications, n.urgency = "critical")) := by
  refine ⟨⟨rfl, rfl, fun hf => ?_⟩, ⟨rfl, rfl, fun hf => ?_⟩,
    ⟨rfl, rfl, fun hf => ?_⟩, ⟨rfl, rfl, fun hf => ?_⟩⟩
  · cases hm : (run_checked_seq ex (enable_proxy_cmds st.proxy_selection)).2 with
    | none => exact absurd hm hf
    | some msg => simp [_enable_proxy, hm]
  · cases hm : ex (kwrite_cmd "ProxyType" "0") with
    | none => exact absurd hm hf
    | some msg => simp [_disable_proxy, hm]
  · cases hm : ex ["pkexec", PROXY_CMD, "enable", st.redsocks_selection.ip] with
    | none => exact absurd hm hf
    | some msg => simp [_enable_redsocks, hm]
  · cases hm : ex ["pkexec", PROXY_CMD, "disable"] with
    | none => exact absurd hm hf
    | some msg => simp [_disable_redsocks, hm]

/-- Claim C4, witness: under the everything-fails oracle, all four
handlers keep the state, refresh, and emit one critical notification. -/
theorem mutation_failure_uniform_witness :
    (_enable_proxy stA exFail).1 = stA ∧
    (∀ n ∈ (_enable_proxy stA exFail).2.notifications, n.urgency = "critical") ∧
    (∀ n ∈ (_disable_proxy stA exFail).2.notifications, n.urgency = "critical") ∧
    (∀ n ∈ (_enable_redsocks stA exFail).2.notifications, n.urgency = "critical") ∧
    (∀ n ∈ (_disable_redsocks stA exFail).2.notifications, n.urgency = "critical") := by
  have h := mutation_failure_uniform stA exFail
  exact ⟨h.1.1, (h.1.2.2 (by decide)).2, (h.2.1.2.2 (by decide)).2,
    (h.2.2.1.2.2 (by decide)).2, (h.2.2.2.2.2 (by decide)).2⟩

/-- Claim C5: with a non-empty loaded catalog both initial selections are
the catalog's first record; with an empty catalog both are the hard-coded
fallback record (name "Default", address "172.16.x.x", credentials
"edcguest"). -/
theorem initial_selection_spec (js : JsonSource) (ts : TextSource) :
    (∀ p rest, _load_proxies js ts = p :: rest → init_state js ts = ⟨p, p⟩) ∧
    (_load_proxies js ts = [] →
      init_state js ts = ⟨⟨"Default", "172.16.x.x", "edcguest", "edcguest"⟩,
        ⟨"Default", "172.16.x.x", "edcguest", "edcguest"⟩⟩) := by
  constructor
  · intro p rest h
    simp [init_state, _initial_proxy, h]
  · intro h
    simp [init_state, _initial_proxy, h]

/-- Claim C5, witness: a one-record catalog and an empty catalog. -/
theorem initial_selection_spec_witness :
    init_state (JsonSource.list [recA]) TextSource.unreadable = ⟨recA, recA⟩ ∧
    init_state JsonSource.unreadable TextSource.unreadable =
      ⟨⟨"Default", "172.16.x.x", "edcguest", "edcguest"⟩,
        ⟨"Default", "172.16.x.x", "edcguest", "edcguest"⟩⟩ :=
  ⟨(initial_selection_spec (JsonSource.list [recA]) TextSource.unreadable).1
      recA [] (by decide),
    (initial_selection_spec JsonSource.unreadable TextSource.unreadable).2 (by decide)⟩

/-- Claim C6: the loader prefers a non-empty structured list; when the
structured source yields no usable list it falls back to the text source,
whose records are exactly one per non-blank line, named "Proxy <line
number>" with the fixed default credentials; and it returns the empty
sequence only when the structured source had no usable data and the text
source failed or contained only blank lines. Totality (never raises) is
inherent in the definition. -/
theorem load_proxies_spec (js : JsonSource) (ts : TextSource) :
    (∀ data, js = JsonSource.list data → data ≠ [] → _load_proxies js ts = data) ∧
    ((∀ data, js = JsonSource.list data → data = []) →
      _load_proxies js ts =
        match ts with
        | TextSource.unreadable => []
        | TextSource.lines ls => txt_records ls) ∧
    (∀ ls r, r ∈ txt_records ls ↔
      ∃ j line, ls.get? j = some line ∧ pstrip line ≠ "" ∧
        r = ⟨"Proxy " ++ toString (j + 1), pstrip line, "edcguest", "edcguest"⟩) ∧
    (_load_proxies js ts = [] →
      (∀ data, js = JsonSource.list data → data = []) ∧
      (ts = TextSource.unreadable ∨
        ∃ ls, ts = TextSource.lines ls ∧ ∀ line ∈ ls, pstrip line = "")) := by
  refine ⟨?_, ?_, ?_, ?_⟩
  · intro data hjs hne
    subst hjs
    simp [_load_proxies, hne]
  · intro hempty
    cases js with
    | unreadable => cases ts <;> rfl
    | notList => cases ts <;> rfl
    | list data =>
      have hd : data = [] := hempty data rfl
      subst hd
      cases ts <;> rfl
  · intro ls r
    rw [txt_records, mem_txt_records_from]
    constructor
    · rintro ⟨j, line, h1, h2, h3⟩
      refine ⟨j, line, h1, h2, ?_⟩
      rw [show j + 1 = 1 + j from Nat.add_comm j 1]
      exact h3
    · rintro ⟨j, line, h1, h2, h3⟩
      refine ⟨j, line, h1, h2, ?_⟩
      rw [show (1 : Nat) + j = j + 1 from Nat.add_comm 1 j]
      exact h3
  · intro h
    cases js with
    | unreadable =>
      refine ⟨(fun d hd => nomatch hd), ?_⟩
      cases ts with
      | unreadable => exact Or.inl rfl
      | lines ls =>
        refine Or.inr ⟨ls, rfl, ?_⟩
        have hnil : txt_records ls = [] := by simpa [_load_proxies] using h
        exact (txt_records_from_eq_nil_iff 1 ls).mp hnil
    | notList =>
      refine ⟨(fun d hd => nomatch hd), ?_⟩
      cases ts with
      | unreadable => exact Or.inl rfl
      | lines ls =>
        refine Or.inr ⟨ls, rfl, ?_⟩
        have hnil : txt_records ls = [] := by simpa [_load_proxies] using h
        exact (txt_records_from_eq_nil_iff 1 ls).mp hnil
    | list data =>
      by_cases hd : data = []
      · subst hd
        refine ⟨fun d hd' => (by injection hd' with h2; exact h2.symm), ?_⟩
        cases ts with
        | unreadable => exact Or.inl rfl
        | lines ls =>
          refine Or.inr ⟨ls, rfl, ?_⟩
          have hnil : txt_records ls = [] := by simpa [_load_proxies] using h
          exact (txt_records_from_eq_nil_iff 1 ls).mp hnil
      · exfalso
        have hall : _load_proxies (JsonSource.list data) ts = data := by
          simp [_load_proxies, hd]
        exact hd (hall.symm.trans h)

/-- Claim C6, witness: an unusable structured source together with a text
source holding one blank and one padded line. -/
theorem load_proxies_spec_witness :
    _load_proxies JsonSource.notList (TextSource.lines ["", " 10.0.0.7 "]) =
      txt_records ["", " 10.0.0.7 "] :=
  (load_proxies_spec JsonSource.notList (TextSource.lines ["", " 10.0.0.7 "])).2.1
    (fun _ hd => nomatch hd)

/-- Claim C7: cancellation at the radiolist step, or at the custom-entry
step (cancel or blank input), returns no change, leaves both selections
unchanged, and emits zero notifications. -/
theorem picker_cancellation_no_change (st : ManagerState) (js : JsonSource)
    (ts : TextSource) (d1 d2 : DialogResult) (cur : ProxyRecord)
    (hne : _load_proxies js ts ≠ [])
    (hcancel :
      d1 = DialogResult.cancelled ∨
      ∃ stdout, d1 = DialogResult.chosen stdout ∧ pstrip stdout = "__custom__" ∧
        (d2 = DialogResult.cancelled ∨
          ∃ stdout2, d2 = DialogResult.chosen stdout2 ∧ pstrip stdout2 = "")) :
    _pick_proxy js ts cur d1 d2 = (none, []) ∧
    _change_proxy st js ts d1 d2 = (st, [], true) ∧
    _change_redsocks_proxy st js ts d1 d2 = (st, [], true) := by
  have hp : ∀ c, _pick_proxy js ts c d1 d2 = (none, []) :=
    fun c => pick_proxy_cancel js ts c d1 d2 hne hcancel
  refine ⟨hp cur, ?_, ?_⟩
  · simp [_change_proxy, hp]
  · simp [_change_redsocks_proxy, hp]

/-- Claim C7, witness: cancelling the radiolist over a one-record catalog. -/
theorem picker_cancellation_no_change_witness :
    _pick_proxy (JsonSource.list [recA]) TextSource.unreadable recA
      DialogResult.cancelled DialogResult.cancelled = (none, []) ∧
    _change_proxy stA (JsonSource.list [recA]) TextSource.unreadable
      DialogResult.cancelled DialogResult.cancelled = (stA, [], true) := by
  have h := picker_cancellation_no_change stA (JsonSource.list [recA])
    TextSource.unreadable DialogResult.cancelled DialogResult.cancelled recA
    (by decide) (Or.inl rfl)
  exact ⟨h.1, h.2.1⟩

/-- Claim C8, counterexample: the tooltip produced by the source separates
the two halves with two spaces on each side of the bar, so it is not equal
to the single-space template of the claim. -/
theorem tooltip_not_single_spaced :
    _tooltip stA RunOutcome.exc RunOutcome.exc =
      "Proxy: OFF (10.0.0.1)  |  Redsocks: OFF (10.0.0.1)" ∧
    _tooltip stA RunOutcome.exc RunOutcome.exc ≠
      "Proxy: OFF (10.0.0.1) | Redsocks: OFF (10.0.0.1)" := by
  decide

/-- Claim C8 (amended): for every pair of probe outcomes and every state,
the tooltip equals "Proxy: <ON|OFF> (<system-proxy address>)  |
Redsocks: <ON|OFF> (<redsocks address>)" — with two spaces on each side of
the bar — where the two addresses come from the current selections
regardless of the probe outcomes. -/
theorem tooltip_matches_spec_format (st : ManagerState) (o1 o2 : RunOutcome) :
    _tooltip st o1 o2 =
      tooltip_spec_format (is_proxy_on o1) (is_redsocks_on o2)
        st.proxy_selection.ip st.redsocks_selection.ip := rfl

/-- Claim C9: neither `_refresh` nor any number of iterations of the
background `_monitor` loop writes the selection state, and the change
handlers write it only when the picker returns a record. -/
theorem reconciliation_no_selection_write (st : ManagerState)
    (trace : List (RunOutcome × RunOutcome)) (o1 o2 : RunOutcome) (icon : IconState)
    (js : JsonSource) (ts : TextSource) (d1 d2 : DialogResult) :
    (_refresh st o1 o2).1 = st ∧
    (_monitor st trace icon).1 = st ∧
    ((_pick_proxy js ts st.proxy_selection d1 d2).1 = none →
      (_change_proxy st js ts d1 d2).1 = st) ∧
    ((_pick_proxy js ts st.redsocks_selection d1 d2).1 = none →
      (_change_redsocks_proxy st js ts d1 d2).1 = st) := by
  refine ⟨rfl, monitor_preserves_state trace st icon, ?_, ?_⟩
  · intro h
    simp [_change_proxy, h]
  · intro h
    simp [_change_redsocks_proxy, h]

/-- Claim C9, witness: a two-tick monitor run and a cancelled pick. -/
theorem reconciliation_no_selection_write_witness :
    (_monitor stA [(RunOutcome.exc, RunOutcome.exc),
      (RunOutcome.completed 0 "1", RunOutcome.exc)] ⟨(CLR_OFF, "–"), ""⟩).1 = stA ∧
    (_change_proxy stA (JsonSource.list [recA]) TextSource.unreadable
      DialogResult.cancelled DialogResult.cancelled).1 = stA := by
  have h := reconciliation_no_selection_write stA
    [(RunOutcome.exc, RunOutcome.exc), (RunOutcome.completed 0 "1", RunOutcome.exc)]
    RunOutcome.exc RunOutcome.exc ⟨(CLR_OFF, "–"), ""⟩
    (JsonSource.list [recA]) TextSource.unreadable
    DialogResult.cancelled DialogResult.cancelled
  exact ⟨h.2.1, h.2.2.1 (by decide)⟩

/-- Claim C10: a radiolist tag that is neither the custom sentinel nor any
catalog record's address makes the picker fall through to no change, with
zero notifications and both selections unchanged. -/
theorem picker_unknown_tag_no_change (st : ManagerState) (js : JsonSource)
    (ts : TextSource) (stdout : String) (d2 : DialogResult) (cur : ProxyRecord)
    (hne : _load_proxies js ts ≠ [])
    (hnc : pstrip stdout ≠ "__custom__")
    (hnomatch : ∀ p ∈ _load_proxies js ts, p.ip ≠ pstrip stdout) :
    _pick_proxy js ts cur (DialogResult.chosen stdout) d2 = (none, []) ∧
    _change_proxy st js ts (DialogResult.chosen stdout) d2 = (st, [], true) ∧
    _change_redsocks_proxy st js ts (DialogResult.chosen stdout) d2 = (st, [], true) := by
  have hfind : (_load_proxies js ts).find? (fun p => p.ip = pstrip stdout) = none := by
    rw [List.find?_eq_none]
    intro p hp
    simpa using hnomatch p hp
  have hp : ∀ c, _pick_proxy js ts c (DialogResult.chosen stdout) d2 = (none, []) := by
    intro c
    simp [_pick_proxy, hne, hnc, hfind]
  refine ⟨hp cur, ?_, ?_⟩
  · simp [_change_proxy, hp]
  · simp [_change_redsocks_proxy, hp]

/-- Claim C10, witness: an unknown tag against a one-record catalog. -/
theorem picker_unknown_tag_no_change_witness :
    _pick_proxy (JsonSource.list [recA]) TextSource.unreadable recA
      (DialogResult.chosen "9.9.9.9") DialogResult.cancelled = (none, []) ∧
    _change_proxy stA (JsonSource.list [recA]) TextSource.unreadable
      (DialogResult.chosen "9.9.9.9") DialogResult.cancelled = (stA, [], true) := by
  have h := picker_unknown_tag_no_change stA (JsonSource.list [recA])
    TextSource.unreadable "9.9.9.9" DialogResult.cancelled recA
    (by decide) (by decide) (by decide)
  exact ⟨h.1, h.2.1⟩

end ProxyTray
